import Mathlib

/-!
Shallow embedding of the Soil-Mind on-device irrigation pipeline.

The `Irrigation` namespace embeds
`src/AI/irrigation_schduling_next_step_for_interfacing/real-sensor-code-irrigation_schdeuling.ino`:
the `SensorHistory` circular buffer, the `PumpController` state machine,
sensor scaling/validation, and the decision logic of `loop()`.

The `V2` namespace embeds the fallback decision cascade of
`src/AI/irrigation_model_v2/Arduino_test/Arduino_test.ino`.

The `PlantHealth` namespace embeds the input quantization of `predict` in
`src/AI/plant_health_model/Arduino_test/Arduino_test.ino`.

C `float`/`double` values are modelled as `Rat`; `unsigned long` (32-bit) time
arithmetic is modelled on `Nat` with explicit wraparound subtraction `usub`.
-/

namespace Irrigation

/-- The modulus 2^32 of ESP32 `unsigned long` arithmetic. -/
def U32 : Nat := 4294967296

/-- Wraparound-safe `a - b` on `unsigned long`, as computed by the C code. -/
def usub (a b : Nat) : Nat := (a + (U32 - b % U32)) % U32

/-- Source constant `MIN_PUMP_ON_TIME = 30000`. -/
def MIN_PUMP_ON_TIME : Nat := 30000

/-- Source constant `MIN_PUMP_OFF_TIME = 60000`. -/
def MIN_PUMP_OFF_TIME : Nat := 60000

/-- Source constant `MAX_PUMP_RUN_TIME = 300000`. -/
def MAX_PUMP_RUN_TIME : Nat := 300000

/-- Source constant `READING_INTERVAL_MS = 60000`. -/
def READING_INTERVAL_MS : Nat := 60000

/-- Source constant `HISTORY_SIZE = 4`. -/
def HISTORY_SIZE : Nat := 4

/-- Source constant `THRESHOLD_IRRIGATE = 0.70`. -/
def THRESHOLD_IRRIGATE : Rat := 70 / 100

/-- Source constant `THRESHOLD_STOP = 0.30`. -/
def THRESHOLD_STOP : Rat := 30 / 100

/-- Source constant `MOISTURE_AIR_VALUE = 3100`. -/
def MOISTURE_AIR_VALUE : Rat := 3100

/-- Source constant `MOISTURE_WATER_VALUE = 1400`. -/
def MOISTURE_WATER_VALUE : Rat := 1400

/-- Source constant `TRAINING_SCALE_MIN = 100.0`. -/
def TRAINING_SCALE_MIN : Rat := 100

/-- Source constant `TRAINING_SCALE_MAX = 400.0`. -/
def TRAINING_SCALE_MAX : Rat := 400

/-- The `struct SensorHistory`: two 4-slot arrays (modelled as total maps, only
slots `0..3` are ever addressed), a write cursor and a saturating count. -/
structure SensorHistory where
  temperature : Nat → Rat
  moisture : Nat → Rat
  writeIndex : Nat
  count : Nat

/-- Method `SensorHistory::init()`: zero the slots, reset cursor and count. -/
def SensorHistory.init : SensorHistory :=
  { temperature := fun _ => 0
    moisture := fun _ => 0
    writeIndex := 0
    count := 0 }

/-- Method `SensorHistory::addReading(temp, moist)`: write at `writeIndex`, advance it
modulo `HISTORY_SIZE`, saturate `count` at `HISTORY_SIZE`. -/
def SensorHistory.addReading (s : SensorHistory) (temp moist : Rat) : SensorHistory :=
  { temperature := Function.update s.temperature s.writeIndex temp
    moisture := Function.update s.moisture s.writeIndex moist
    writeIndex := (s.writeIndex + 1) % HISTORY_SIZE
    count := if s.count < HISTORY_SIZE then s.count + 1 else s.count }

/-- The slot index `(writeIndex - 1 - stepsAgo + HISTORY_SIZE) % HISTORY_SIZE`
computed by the getters, with C `int` arithmetic modelled on `Int` (the
dividend is nonnegative whenever `writeIndex < HISTORY_SIZE` and
`stepsAgo < HISTORY_SIZE`, so C `%` agrees with `Int.emod`). -/
def SensorHistory.slotIndex (s : SensorHistory) (stepsAgo : Nat) : Nat :=
  (((s.writeIndex : Int) - 1 - (stepsAgo : Int) + (HISTORY_SIZE : Int)) % (HISTORY_SIZE : Int)).toNat

/-- Method `SensorHistory::getTemp(stepsAgo)`, including the `stepsAgo >= count`
fallback to `temperature[0]`. -/
def SensorHistory.getTemp (s : SensorHistory) (stepsAgo : Nat) : Rat :=
  if stepsAgo ≥ s.count then s.temperature 0
  else s.temperature (s.slotIndex stepsAgo)

/-- Method `SensorHistory::getMoisture(stepsAgo)`, including the `stepsAgo >= count`
fallback to `moisture[0]`. -/
def SensorHistory.getMoisture (s : SensorHistory) (stepsAgo : Nat) : Rat :=
  if stepsAgo ≥ s.count then s.moisture 0
  else s.moisture (s.slotIndex stepsAgo)

/-- Method `SensorHistory::isReady()`: `count >= HISTORY_SIZE`. -/
def SensorHistory.isReady (s : SensorHistory) : Bool :=
  s.count ≥ HISTORY_SIZE

/-- Replay a list of `(temp, moist)` readings through `addReading` starting
from the freshly initialized buffer. -/
def runAdds (ps : List (Rat × Rat)) : SensorHistory :=
  ps.foldl (fun s p => s.addReading p.1 p.2) SensorHistory.init

/-- The `struct PumpController` state. -/
structure PumpState where
  isRunning : Bool
  lastOnTime : Nat
  lastOffTime : Nat
  runStartTime : Nat
deriving DecidableEq

/-- Method `PumpController::init()`. -/
def PumpState.init : PumpState :=
  { isRunning := false, lastOnTime := 0, lastOffTime := 0, runStartTime := 0 }

/-- Method `PumpController::canTurnOn(now)`: false while `now - lastOffTime` is below
the minimum off time. -/
def PumpState.canTurnOn (s : PumpState) (now : Nat) : Bool :=
  if usub now s.lastOffTime < MIN_PUMP_OFF_TIME then false else true

/-- Method `PumpController::shouldForceOff(now)`: running and past the maximum
continuous run time. -/
def PumpState.shouldForceOff (s : PumpState) (now : Nat) : Bool :=
  if s.isRunning ∧ usub now s.runStartTime > MAX_PUMP_RUN_TIME then true else false

/-- Method `PumpController::turnOn(now)`: only acts when currently off. -/
def PumpState.turnOn (s : PumpState) (now : Nat) : PumpState :=
  if s.isRunning then s
  else { s with isRunning := true, runStartTime := now, lastOnTime := now }

/-- Method `PumpController::turnOff(now)`: only acts when running and the minimum on
time has elapsed. -/
def PumpState.turnOff (s : PumpState) (now : Nat) : PumpState :=
  if s.isRunning ∧ usub now s.runStartTime ≥ MIN_PUMP_ON_TIME then
    { s with isRunning := false, lastOffTime := now }
  else s

/-- Function `makeIrrigationDecision(probability, now)`: forced-off check first, then
the hysteresis thresholds. -/
def makeIrrigationDecision (probability : Rat) (now : Nat) (s : PumpState) : PumpState :=
  if s.shouldForceOff now then s.turnOff now
  else if s.isRunning = false ∧ probability > THRESHOLD_IRRIGATE then
    (if s.canTurnOn now then s.turnOn now else s)
  else if s.isRunning = true ∧ probability < THRESHOLD_STOP then s.turnOff now
  else s

/-- One direct `PumpController` method call, tagged with its `now` argument.
`checkForceOff` is the pure `shouldForceOff` query, which reads but never
writes the state. -/
inductive PumpOp where
  | on (now : Nat)
  | off (now : Nat)
  | checkForceOff (now : Nat)

/-- Apply one `PumpOp` to the pump state, alongside a ghost record of the
`now` argument of the most recent `turnOn` call that actually transitioned
the pump from OFF to ON. -/
def pumpStep (p : PumpState × Option Nat) (op : PumpOp) : PumpState × Option Nat :=
  match op with
  | .on t => if p.1.isRunning then (p.1, p.2) else (p.1.turnOn t, some t)
  | .off t => (p.1.turnOff t, p.2)
  | .checkForceOff _ => p

/-- Replay a list of `PumpOp`s from the freshly initialized controller. -/
def runOps (ops : List PumpOp) : PumpState × Option Nat :=
  ops.foldl pumpStep (PumpState.init, none)

/-- Function `readSoilMoistureRaw()`: sum of the `analogRead` samples divided by the
sample count with C `long` (truncating) division; the samples are nonnegative
ADC integers so this is `Int` division toward zero = floor division. The
quotient is then promoted to `float`. -/
def readSoilMoistureRaw (samples : List Nat) : Rat :=
  ((((samples.foldl (fun a b => a + b) 0 : Nat) : Int) / 10 : Int) : Rat)

/-- Arduino `constrain(amt, low, high)`. -/
def constrainRat (amt low high : Rat) : Rat :=
  if amt < low then low else if amt > high then high else amt

/-- Function `readSoilMoisturePercent()` as a function of the averaged raw reading. -/
def readSoilMoisturePercent (raw : Rat) : Rat :=
  constrainRat ((MOISTURE_AIR_VALUE - raw) / (MOISTURE_AIR_VALUE - MOISTURE_WATER_VALUE) * 100) 0 100

/-- Function `readSoilMoistureScaled()` as a function of the averaged raw reading. -/
def readSoilMoistureScaled (raw : Rat) : Rat :=
  TRAINING_SCALE_MIN + (readSoilMoisturePercent raw / 100) * (TRAINING_SCALE_MAX - TRAINING_SCALE_MIN)

/-- Function `validateSensorReadings(temp, moisture)`. -/
def validateSensorReadings (temp moisture : Rat) : Bool :=
  if temp < -10 ∨ temp > 60 then false
  else if moisture < 50 ∨ moisture > 500 then false
  else true

/-- The mutable globals touched by one pass of `loop()`. -/
structure SysState where
  hist : SensorHistory
  pump : PumpState
  lastReadingTime : Nat

/-- The safety re-check at the tail of `loop()`: force the pump off when it
has exceeded the maximum run time. -/
def tailForceOffCheck (s : SysState) (now : Nat) : SysState :=
  if s.pump.shouldForceOff now then { s with pump := s.pump.turnOff now } else s

/-- One pass of `loop()`, with the sensor reads and the inference outcome
abstracted as inputs: `temp` is `readTemperature()` (already `-999` on a NaN
DHT read), `moist` is `readSoilMoistureScaled()`, and `prob` is the
probability the model/fallback path would produce this cycle. A validation
failure `return`s from `loop()` before `addReading`, skipping the tail
safety check as well. -/
def loopStep (s : SysState) (now : Nat) (temp moist prob : Rat) : SysState :=
  if usub now s.lastReadingTime ≥ READING_INTERVAL_MS then
    let s1 : SysState := { s with lastReadingTime := now }
    if validateSensorReadings temp moist then
      let hist' := s1.hist.addReading temp moist
      if hist'.isReady then
        tailForceOffCheck { s1 with hist := hist', pump := makeIrrigationDecision prob now s1.pump } now
      else
        tailForceOffCheck { s1 with hist := hist' } now
    else s1
  else tailForceOffCheck s now

end Irrigation

namespace V2

/-- The result strings of `trendBasedDecision` in
`irrigation_model_v2/Arduino_test/Arduino_test.ino`, one constructor per
distinct returned string. -/
inductive TrendDecision where
  /-- Returned string "CRITICAL - IRRIGATE NOW!". -/
  | criticalIrrigate
  /-- Returned string "IRRIGATE SOON (rapid drying)". -/
  | irrigateSoon
  /-- Returned string "NO - Soil recovering". -/
  | noRecovering
  /-- Returned string "IRRIGATE (heat + drying)". -/
  | irrigateHeat
  /-- Returned string "IRRIGATE (stable, low)". -/
  | stableIrrigate
  /-- Returned string "NO - Stable, adequate". -/
  | stableAdequate
  /-- Returned string "IRRIGATE (moderate drying)". -/
  | irrigateModerate
  /-- Returned string "MONITOR". -/
  | monitor
deriving DecidableEq

/-- Function `thresholdDecision(temp, moisture)`: temperature-banded static moisture
thresholds. -/
def thresholdDecision (temp moisture : Rat) : Bool :=
  if temp < 28 then moisture < 256
  else if temp < 30 then moisture < 237
  else if temp < 32 then moisture < 229
  else moisture < 240

/-- Function `trendBasedDecision(moisture, moistureTrend, temp)`: the ordered rule
cascade with early returns. -/
def trendBasedDecision (moisture moistureTrend temp : Rat) : TrendDecision :=
  if moisture < 160 then .criticalIrrigate
  else if moistureTrend < -50 ∧ moisture < 250 then .irrigateSoon
  else if moistureTrend > 30 then .noRecovering
  else if temp > 33 ∧ moistureTrend < -30 then .irrigateHeat
  else if moistureTrend > -15 ∧ moistureTrend < 15 then
    (if thresholdDecision temp moisture then .stableIrrigate else .stableAdequate)
  else if moistureTrend < -20 ∧ moisture < 220 then .irrigateModerate
  else .monitor

end V2

namespace PlantHealth

/-- C cast `(int32_t)` of a float value: truncation toward zero. -/
def truncTowardZero (q : Rat) : Int :=
  if 0 ≤ q then ⌊q⌋ else ⌈q⌉

/-- Round to nearest integer (ties upward), the `round` of the spec's
quantization formula. -/
def roundNearest (q : Rat) : Int := ⌊q + 1 / 2⌋

/-- Arduino `constrain` on integers. -/
def constrainInt (amt low high : Int) : Int :=
  if amt < low then low else if amt > high then high else amt

/-- C cast `(int8_t)` of an `int32_t` value: wrap into `[-128, 127]`. -/
def int8cast (v : Int) : Int :=
  ((v + 128) % 256) - 128

/-- The per-feature input quantization performed by `predict` in
`plant_health_model/Arduino_test/Arduino_test.ino`:
`normalized = (raw - mean) / std`;
`quantized = (int32_t)(normalized / scale) + zeroPoint`;
tensor byte `= (int8_t)constrain(quantized, -128, 127)`.
The constants `FEATURE_MEANS[i]`, `FEATURE_STDS[i]`, `INPUT_SCALE`,
`INPUT_ZERO_POINT` come from the generated header `plant_health_model.h`
and are taken as parameters. -/
def quantizeInput (mean std scale : Rat) (zeroPoint : Int) (raw : Rat) : Int :=
  let normalized := (raw - mean) / std
  let quantized : Int := truncTowardZero (normalized / scale) + zeroPoint
  int8cast (constrainInt quantized (-128) 127)

/-- Modelled from the spec: the quantization formula the spec states for the
same inputs, `q = round(normalized / scale) + zeroPoint` clamped to
`[-128, 127]` — differing from the code only in rounding versus the
truncating C cast. -/
def quantizeInputSpec (mean std scale : Rat) (zeroPoint : Int) (raw : Rat) : Int :=
  let normalized := (raw - mean) / std
  max (-128) (min 127 (roundNearest (normalized / scale) + zeroPoint))

end PlantHealth

/-! ## Helper lemmas -/

namespace Irrigation

theorem mID_off_before_minOff (s : PumpState) (p : Rat) (now : Nat)
    (hrun : s.isRunning = false) (h : usub now s.lastOffTime < MIN_PUMP_OFF_TIME) :
    makeIrrigationDecision p now s = s := by
  have hf : s.shouldForceOff now = false := by
    simp [PumpState.shouldForceOff, hrun]
  have hc : s.canTurnOn now = false := by
    simp [PumpState.canTurnOn, h]
  simp [makeIrrigationDecision, hf, hc, hrun]

theorem pumpInv (ops : List PumpOp) (p : PumpState × Option Nat)
    (h : p.1.isRunning = true →
      p.2 = some p.1.runStartTime ∧ p.1.runStartTime = p.1.lastOnTime) :
    (ops.foldl pumpStep p).1.isRunning = true →
      (ops.foldl pumpStep p).2 = some (ops.foldl pumpStep p).1.runStartTime ∧
      (ops.foldl pumpStep p).1.runStartTime = (ops.foldl pumpStep p).1.lastOnTime := by
  induction ops generalizing p with
  | nil => exact h
  | cons op rest ih =>
    simp only [List.foldl_cons]
    apply ih
    rcases op with t | t | t
    · by_cases hr : p.1.isRunning
      · simpa [pumpStep, hr] using h
      · simp [pumpStep, hr, PumpState.turnOn]
    · simp only [pumpStep]
      unfold PumpState.turnOff
      split_ifs with hg
      · simp
      · exact h
    · exact h

theorem runAdds_count_aux (ps : List (Rat × Rat)) (s : SensorHistory)
    (h : s.count ≤ HISTORY_SIZE) :
    (ps.foldl (fun s p => s.addReading p.1 p.2) s).count =
      min (s.count + ps.length) HISTORY_SIZE := by
  induction ps generalizing s with
  | nil =>
    simp only [List.foldl_nil, List.length_nil, Nat.add_zero]
    omega
  | cons a ps ih =>
    simp only [List.foldl_cons, List.length_cons]
    rw [ih]
    · simp only [SensorHistory.addReading]
      unfold HISTORY_SIZE at *
      split_ifs <;> omega
    · simp only [SensorHistory.addReading]
      unfold HISTORY_SIZE at *
      split_ifs <;> omega

theorem runAdds_writeIndex_aux (ps : List (Rat × Rat)) (s : SensorHistory)
    (h : s.writeIndex < HISTORY_SIZE) :
    (ps.foldl (fun s p => s.addReading p.1 p.2) s).writeIndex =
      (s.writeIndex + ps.length) % HISTORY_SIZE := by
  induction ps generalizing s with
  | nil =>
    simp only [List.foldl_nil, List.length_nil, Nat.add_zero]
    unfold HISTORY_SIZE at *
    omega
  | cons a ps ih =>
    simp only [List.foldl_cons, List.length_cons]
    rw [ih]
    · simp only [SensorHistory.addReading]
      unfold HISTORY_SIZE at *
      omega
    · simp only [SensorHistory.addReading]
      unfold HISTORY_SIZE at *
      omega

theorem runAdds_count (ps : List (Rat × Rat)) :
    (runAdds ps).count = min ps.length HISTORY_SIZE := by
  unfold runAdds
  rw [runAdds_count_aux ps SensorHistory.init (by simp [SensorHistory.init, HISTORY_SIZE])]
  simp [SensorHistory.init]

theorem runAdds_writeIndex (ps : List (Rat × Rat)) :
    (runAdds ps).writeIndex = ps.length % HISTORY_SIZE := by
  unfold runAdds
  rw [runAdds_writeIndex_aux ps SensorHistory.init (by simp [SensorHistory.init, HISTORY_SIZE])]
  simp [SensorHistory.init]

end Irrigation

/-! ## Claim theorems -/

open Irrigation

/-- Claim C1, counterexample: at moisture 150, trend +40, temperature 25, the
cascade returns the critical-irrigate decision (rule 1 fires first), not the
recovery suppression the claim asserts. -/
theorem C1_counterexample :
    V2.trendBasedDecision 150 40 25 = V2.TrendDecision.criticalIrrigate ∧
    V2.trendBasedDecision 150 40 25 ≠ V2.TrendDecision.noRecovering := by
  have h : V2.trendBasedDecision 150 40 25 = V2.TrendDecision.criticalIrrigate := by
    norm_num [V2.trendBasedDecision]
  refine ⟨h, ?_⟩
  rw [h]
  decide

/-- Claim C1 (amended): for moisture 200 — above the critical floor 160 and
below every temperature-banded static threshold — and moisture trend +40, the
decision is the recovery suppression (rule 3) for every temperature: trend
overrides the absolute-value threshold. -/
theorem C1_trend_overrides_threshold (temp : Rat) :
    V2.trendBasedDecision 200 40 temp = V2.TrendDecision.noRecovering ∧
    (∀ t' : Rat, V2.thresholdDecision t' 200 = true) := by
  constructor
  · norm_num [V2.trendBasedDecision]
  · intro t'
    unfold V2.thresholdDecision
    split_ifs <;> norm_num

/-- Claim C2: whenever the pump is running and `now - runStartTime` (32-bit
wraparound subtraction) exceeds the maximum run time, `makeIrrigationDecision`
turns the pump off, for every probability. -/
theorem C2_forced_off (s : PumpState) (p : Rat) (now : Nat)
    (hrun : s.isRunning = true)
    (hmax : usub now s.runStartTime > MAX_PUMP_RUN_TIME) :
    (makeIrrigationDecision p now s).isRunning = false := by
  have hf : s.shouldForceOff now = true := by
    simp [PumpState.shouldForceOff, hrun, hmax]
  have hmin : usub now s.runStartTime ≥ MIN_PUMP_ON_TIME := by
    unfold MAX_PUMP_RUN_TIME at hmax
    unfold MIN_PUMP_ON_TIME
    omega
  simp [makeIrrigationDecision, hf, PumpState.turnOff, hrun, hmin]

/-- Witness for C2. -/
theorem C2_forced_off_witness :
    ({ isRunning := true, lastOnTime := 0, lastOffTime := 0,
       runStartTime := 0 } : PumpState).isRunning = true ∧
    usub 300001 0 > MAX_PUMP_RUN_TIME ∧
    (makeIrrigationDecision (1/2) 300001
      { isRunning := true, lastOnTime := 0, lastOffTime := 0,
        runStartTime := 0 }).isRunning = false :=
  ⟨rfl, by decide, C2_forced_off _ _ _ rfl (by decide)⟩

/-- Claim C3, counterexample: from the freshly initialized controller, the
decision at probability 0.9 and `now = 0` leaves the pump OFF — `canTurnOn`
fails because `now - lastOffTime = 0 < MIN_PUMP_OFF_TIME`. -/
theorem C3_counterexample :
    (makeIrrigationDecision (9/10) 0 PumpState.init).isRunning = false := by
  rw [mID_off_before_minOff _ _ _ rfl (by decide)]
  rfl

/-- Claim C3 (amended): from the freshly initialized controller, probability
0.9 at times 0, `minOnTime - 1`, and `minOnTime + 1` leaves the pump OFF after
each of the three calls (indeed the state stays exactly the initial state):
`lastOffTime = 0` from init means the minimum-off-time guard blocks any ON
transition until `now ≥ MIN_PUMP_OFF_TIME`. -/
theorem C3_stays_off (p : Rat) :
    (makeIrrigationDecision p 0 PumpState.init).isRunning = false ∧
    (makeIrrigationDecision p 29999
      (makeIrrigationDecision p 0 PumpState.init)).isRunning = false ∧
    (makeIrrigationDecision p 30001 (makeIrrigationDecision p 29999
      (makeIrrigationDecision p 0 PumpState.init))) = PumpState.init := by
  have e1 : makeIrrigationDecision p 0 PumpState.init = PumpState.init :=
    mID_off_before_minOff _ _ _ rfl (by decide)
  have e2 : makeIrrigationDecision p 29999 PumpState.init = PumpState.init :=
    mID_off_before_minOff _ _ _ rfl (by decide)
  have e3 : makeIrrigationDecision p 30001 PumpState.init = PumpState.init :=
    mID_off_before_minOff _ _ _ rfl (by decide)
  refine ⟨by rw [e1]; rfl, by rw [e1, e2]; rfl, by rw [e1, e2, e3]⟩

/-- Claim C6: when the forced-off condition does not hold and the probability
lies strictly inside the hysteresis dead-band (0.30, 0.70),
`makeIrrigationDecision` leaves the whole pump state unchanged. -/
theorem C6_deadband (s : PumpState) (p : Rat) (now : Nat)
    (hf : s.shouldForceOff now = false)
    (h1 : THRESHOLD_STOP < p) (h2 : p < THRESHOLD_IRRIGATE) :
    makeIrrigationDecision p now s = s := by
  have hng : ¬ p > THRESHOLD_IRRIGATE := not_lt.mpr (le_of_lt h2)
  have hns : ¬ p < THRESHOLD_STOP := not_lt.mpr (le_of_lt h1)
  simp [makeIrrigationDecision, hf, hng, hns]

/-- Witness for C6. -/
theorem C6_deadband_witness :
    ({ isRunning := true, lastOnTime := 3, lastOffTime := 0,
       runStartTime := 3 } : PumpState).shouldForceOff 5 = false ∧
    THRESHOLD_STOP < (1/2 : Rat) ∧ (1/2 : Rat) < THRESHOLD_IRRIGATE ∧
    makeIrrigationDecision (1/2) 5
      { isRunning := true, lastOnTime := 3, lastOffTime := 0, runStartTime := 3 } =
      { isRunning := true, lastOnTime := 3, lastOffTime := 0, runStartTime := 3 } :=
  ⟨by decide, by norm_num [THRESHOLD_STOP], by norm_num [THRESHOLD_IRRIGATE],
    C6_deadband _ _ _ (by decide) (by norm_num [THRESHOLD_STOP])
      (by norm_num [THRESHOLD_IRRIGATE])⟩

/-- Claim C9: after any finite sequence of direct `PumpController` calls from
`init`, if the pump is running then `runStartTime` is exactly the `now`
argument of the most recent `turnOn` call that transitioned OFF to ON (the
ghost component of `runOps`), and at that point `runStartTime = lastOnTime`. -/
theorem C9_runStart_tracks_on (ops : List PumpOp)
    (h : (runOps ops).1.isRunning = true) :
    (runOps ops).2 = some (runOps ops).1.runStartTime ∧
    (runOps ops).1.runStartTime = (runOps ops).1.lastOnTime :=
  pumpInv ops (PumpState.init, none) (by simp [PumpState.init]) h

/-- Witness for C9. -/
theorem C9_runStart_tracks_on_witness :
    (runOps [PumpOp.on 5]).1.isRunning = true ∧
    ((runOps [PumpOp.on 5]).2 = some (runOps [PumpOp.on 5]).1.runStartTime ∧
     (runOps [PumpOp.on 5]).1.runStartTime = (runOps [PumpOp.on 5]).1.lastOnTime) :=
  ⟨by decide, C9_runStart_tracks_on _ (by decide)⟩

theorem addReading_getTemp_zero (s : SensorHistory) (t m : Rat)
    (hw : s.writeIndex < HISTORY_SIZE) :
    (s.addReading t m).getTemp 0 = t := by
  have hpos : 0 < (s.addReading t m).count := by
    simp only [SensorHistory.addReading]
    unfold HISTORY_SIZE
    split_ifs <;> omega
  have hidx : (s.addReading t m).slotIndex 0 = s.writeIndex := by
    simp only [SensorHistory.slotIndex, SensorHistory.addReading]
    unfold HISTORY_SIZE at *
    omega
  simp only [SensorHistory.getTemp]
  rw [if_neg (by omega), hidx]
  simp [SensorHistory.addReading]

theorem addReading_getMoisture_zero (s : SensorHistory) (t m : Rat)
    (hw : s.writeIndex < HISTORY_SIZE) :
    (s.addReading t m).getMoisture 0 = m := by
  have hpos : 0 < (s.addReading t m).count := by
    simp only [SensorHistory.addReading]
    unfold HISTORY_SIZE
    split_ifs <;> omega
  have hidx : (s.addReading t m).slotIndex 0 = s.writeIndex := by
    simp only [SensorHistory.slotIndex, SensorHistory.addReading]
    unfold HISTORY_SIZE at *
    omega
  simp only [SensorHistory.getMoisture]
  rw [if_neg (by omega), hidx]
  simp [SensorHistory.addReading]

/-- Claim C5: after any sequence of `addReading` calls (wrapping included),
`getTemp 0` / `getMoisture 0` return the most recently added sample, and for
every sequence the count is `min (number of calls) HISTORY_SIZE`, so it never
exceeds the capacity. -/
theorem C5_newest_and_count (ps : List (Rat × Rat)) (t m : Rat) :
    (runAdds (ps ++ [(t, m)])).getTemp 0 = t ∧
    (runAdds (ps ++ [(t, m)])).getMoisture 0 = m ∧
    ∀ qs : List (Rat × Rat), (runAdds qs).count = min qs.length HISTORY_SIZE := by
  have hsplit : runAdds (ps ++ [(t, m)]) = (runAdds ps).addReading t m := by
    simp [runAdds, List.foldl_append]
  have hw : (runAdds ps).writeIndex < HISTORY_SIZE := by
    rw [runAdds_writeIndex]
    unfold HISTORY_SIZE
    omega
  exact ⟨hsplit ▸ addReading_getTemp_zero _ _ _ hw,
    hsplit ▸ addReading_getMoisture_zero _ _ _ hw, runAdds_count⟩

/-- Claim C4, counterexample: after five `addReading` calls the buffer has
wrapped (`count = 4`, `writeIndex = 1`); for `stepsAgo = 4 ≥ count` the
fallback returns slot 0, which now holds the newest sample (4), while
`get(count - 1)` returns the oldest currently-held sample (1). -/
theorem C4_counterexample :
    0 < (runAdds [((0:Rat), (0:Rat)), (1, 0), (2, 0), (3, 0), (4, 0)]).count ∧
    4 ≥ (runAdds [((0:Rat), (0:Rat)), (1, 0), (2, 0), (3, 0), (4, 0)]).count ∧
    (runAdds [((0:Rat), (0:Rat)), (1, 0), (2, 0), (3, 0), (4, 0)]).getTemp 4 ≠
      (runAdds [((0:Rat), (0:Rat)), (1, 0), (2, 0), (3, 0), (4, 0)]).getTemp
        ((runAdds [((0:Rat), (0:Rat)), (1, 0), (2, 0), (3, 0), (4, 0)]).count - 1) := by
  refine ⟨by decide, by decide, ?_⟩
  norm_num [runAdds, SensorHistory.addReading, SensorHistory.getTemp,
    SensorHistory.slotIndex, SensorHistory.init, HISTORY_SIZE, Function.update]

/-- Claim C4 (amended): the `stepsAgo ≥ count` fallback returns the sample in
array slot 0; in states where the buffer has not wrapped (at most
`HISTORY_SIZE` calls since init) this coincides with the oldest currently-held
sample `get(count - 1)`, but not in wrapped states. -/
theorem C4_fallback_oldest_unwrapped (ps : List (Rat × Rat)) (stepsAgo : Nat)
    (hlen : ps.length ≤ HISTORY_SIZE) (hpos : 0 < ps.length)
    (hsa : stepsAgo ≥ (runAdds ps).count) :
    (runAdds ps).getTemp stepsAgo = (runAdds ps).getTemp ((runAdds ps).count - 1) ∧
    (runAdds ps).getMoisture stepsAgo =
      (runAdds ps).getMoisture ((runAdds ps).count - 1) := by
  have hcount : (runAdds ps).count = ps.length := by
    rw [runAdds_count]
    unfold HISTORY_SIZE at *
    omega
  have hwi : (runAdds ps).writeIndex = ps.length % HISTORY_SIZE := runAdds_writeIndex ps
  have hidx : (runAdds ps).slotIndex ((runAdds ps).count - 1) = 0 := by
    simp only [SensorHistory.slotIndex, hcount, hwi]
    unfold HISTORY_SIZE at *
    omega
  have hguard : ¬ ((runAdds ps).count - 1 ≥ (runAdds ps).count) := by omega
  constructor
  · simp only [SensorHistory.getTemp]
    rw [if_pos hsa, if_neg hguard, hidx]
  · simp only [SensorHistory.getMoisture]
    rw [if_pos hsa, if_neg hguard, hidx]

/-- Witness for C4's amended theorem. -/
theorem C4_fallback_oldest_unwrapped_witness :
    ([((1:Rat), (2:Rat))].length ≤ HISTORY_SIZE ∧ 0 < [((1:Rat), (2:Rat))].length ∧
      3 ≥ (runAdds [((1:Rat), (2:Rat))]).count) ∧
    ((runAdds [((1:Rat), (2:Rat))]).getTemp 3 =
      (runAdds [((1:Rat), (2:Rat))]).getTemp ((runAdds [((1:Rat), (2:Rat))]).count - 1) ∧
     (runAdds [((1:Rat), (2:Rat))]).getMoisture 3 =
      (runAdds [((1:Rat), (2:Rat))]).getMoisture
        ((runAdds [((1:Rat), (2:Rat))]).count - 1)) :=
  ⟨⟨by decide, by decide, by decide⟩,
    C4_fallback_oldest_unwrapped _ _ (by decide) (by decide) (by decide)⟩

/-- Claim C7: on a cycle where a reading is due, if the readings fail
validation, `loop()` returns before `addReading`: the resulting state differs
from the old one only in `lastReadingTime` — history (count, writeIndex,
samples) and the whole pump state are untouched. -/
theorem C7_invalid_cycle_skipped (s : SysState) (now : Nat) (temp moist prob : Rat)
    (hdue : usub now s.lastReadingTime ≥ READING_INTERVAL_MS)
    (hval : validateSensorReadings temp moist = false) :
    loopStep s now temp moist prob = { s with lastReadingTime := now } := by
  simp [loopStep, hdue, hval]

/-- Witness for C7, at the DHT NaN sentinel temperature `-999`. -/
theorem C7_invalid_cycle_skipped_witness :
    usub 60000 0 ≥ READING_INTERVAL_MS ∧
    validateSensorReadings (-999) 250 = false ∧
    loopStep ⟨SensorHistory.init, PumpState.init, 0⟩ 60000 (-999) 250 (1/2) =
      ⟨SensorHistory.init, PumpState.init, 60000⟩ :=
  ⟨by decide, by norm_num [validateSensorReadings],
    C7_invalid_cycle_skipped ⟨SensorHistory.init, PumpState.init, 0⟩ 60000 (-999) 250 (1/2)
      (by decide) (by norm_num [validateSensorReadings])⟩

/-- Claim C8, counterexample: with mean 0, std 1, scale 1, zero point 0 and
raw value 1.7, the code's truncating cast writes 1 to the tensor while the
round-based formula of the claim gives 2. -/
theorem C8_counterexample :
    PlantHealth.quantizeInput 0 1 1 0 (17/10) = 1 ∧
    PlantHealth.quantizeInputSpec 0 1 1 0 (17/10) = 2 := by
  have h1 : PlantHealth.truncTowardZero (((17:Rat)/10 - 0) / 1 / 1) = 1 := by
    unfold PlantHealth.truncTowardZero
    rw [if_pos (by norm_num)]
    apply Int.floor_eq_iff.mpr
    constructor <;> norm_num
  have h2 : PlantHealth.roundNearest (((17:Rat)/10 - 0) / 1 / 1) = 2 := by
    unfold PlantHealth.roundNearest
    apply Int.floor_eq_iff.mpr
    constructor <;> norm_num
  constructor
  · simp only [PlantHealth.quantizeInput, h1]
    norm_num [PlantHealth.constrainInt, PlantHealth.int8cast]
  · simp only [PlantHealth.quantizeInputSpec, h2]
    norm_num

/-- Claim C8 (amended): for every mean, std, scale, zero point and raw value,
the int8 value `predict` writes to the input tensor equals
`trunc(normalized / INPUT_SCALE) + INPUT_ZERO_POINT` clamped to `[-128, 127]`,
where `trunc` is the C cast's truncation toward zero (not `round`) and
`normalized = (raw - mean) / std`. -/
theorem C8_quantize_truncates (mean std scale : Rat) (zeroPoint : Int) (raw : Rat) :
    PlantHealth.quantizeInput mean std scale zeroPoint raw =
      max (-128) (min 127
        (PlantHealth.truncTowardZero ((raw - mean) / std / scale) + zeroPoint)) := by
  simp only [PlantHealth.quantizeInput, PlantHealth.constrainInt, PlantHealth.int8cast]
  split_ifs with h1 h2 <;> omega

/-- Claim C10: every averaged raw ADC value yields a scaled moisture in
`[TRAINING_SCALE_MIN, TRAINING_SCALE_MAX] = [100, 400]`, so the moisture
sanity bound `[50, 500]` never rejects a reading: validation can only fail on
the temperature check. -/
theorem C10_scaled_in_training_range (samples : List Nat) (temp : Rat) :
    TRAINING_SCALE_MIN ≤ readSoilMoistureScaled (readSoilMoistureRaw samples) ∧
    readSoilMoistureScaled (readSoilMoistureRaw samples) ≤ TRAINING_SCALE_MAX ∧
    (validateSensorReadings temp (readSoilMoistureScaled (readSoilMoistureRaw samples)) = true ∨
      temp < -10 ∨ temp > 60) := by
  set raw := readSoilMoistureRaw samples with hraw
  have hp0 : 0 ≤ readSoilMoisturePercent raw := by
    unfold readSoilMoisturePercent constrainRat
    split_ifs <;> linarith
  have hp1 : readSoilMoisturePercent raw ≤ 100 := by
    unfold readSoilMoisturePercent constrainRat
    split_ifs <;> linarith
  have hs0 : TRAINING_SCALE_MIN ≤ readSoilMoistureScaled raw := by
    unfold readSoilMoistureScaled TRAINING_SCALE_MIN TRAINING_SCALE_MAX
    linarith
  have hs1 : readSoilMoistureScaled raw ≤ TRAINING_SCALE_MAX := by
    unfold readSoilMoistureScaled TRAINING_SCALE_MIN TRAINING_SCALE_MAX
    linarith
  refine ⟨hs0, hs1, ?_⟩
  by_cases ht : temp < -10 ∨ temp > 60
  · exact Or.inr ht
  · left
    unfold TRAINING_SCALE_MIN at hs0
    unfold TRAINING_SCALE_MAX at hs1
    unfold validateSensorReadings
    rw [if_neg ht, if_neg (by push_neg; constructor <;> linarith)]
